import Mathlib

/-!
Shallow embedding of the DreamWeaver session/profile synchronization flow:
the auth-state listener, the mock identity provider and document store
backing it, the dream store operations, the auth form state machine, and
the billing webhook handler. Each definition mirrors one function of the
source (src/services/authService.ts, src/components/AuthView.tsx with its
mock Firebase layer, src/functions/index.js).
-/

namespace DreamWeaver

/-! ### Data model -/

/-- The identity record the identity provider hands to listeners
(`firebaseUser`: a uid plus an email). -/
structure Identity where
  uid : String
  email : String
deriving Repr, DecidableEq

/-- The per-user profile document stored in the `users` collection.
`trialEndDate` is optional: the mock account-creation step writes it, the
service-layer profile writes omit it. -/
structure UserProfile where
  id : String
  email : String
  plan : String
  trialEndDate : Option String := none
deriving Repr, DecidableEq

/-- An entry of `mockDb.users`: the credential record the mock identity
provider keeps per uid. -/
structure MockUser where
  uid : String
  email : String
  password : String
deriving Repr, DecidableEq

/-- A dream journal entry (the fields the store operations touch). -/
structure Dream where
  id : String
  timestamp : Nat
  chatHistory : Option String := none
deriving Repr, DecidableEq

/-! ### The mock in-memory maps (`mockDb` uses JS `Map`s keyed by string).
`mapGet` and `mapSet` model `Map.get` and `Map.set`: lookup of the entry
with the given key, and replace-or-append preserving insertion order. -/

def mapGet {α : Type} : List (String × α) → String → Option α
  | [], _ => none
  | (k', v) :: rest, k => if k' = k then some v else mapGet rest k

def mapSet {α : Type} : List (String × α) → String → α → List (String × α)
  | [], k, v => [(k, v)]
  | (k', v') :: rest, k, v =>
      if k' = k then (k, v) :: rest else (k', v') :: mapSet rest k v

theorem mapGet_mapSet_self {α : Type} (m : List (String × α)) (k : String) (v : α) :
    mapGet (mapSet m k v) k = some v := by
  induction m with
  | nil => simp [mapGet, mapSet]
  | cons kv rest ih =>
    by_cases h : kv.1 = k
    · simp [mapSet, h, mapGet]
    · simp [mapSet, h, mapGet, ih]

abbrev ProfileStore := List (String × UserProfile)

/-! ### Session synchronizer: the `onAuthStateChanged` listener body
(src/services/authService.ts lines 11-28). On a present identity it fetches
the profile document; if the document exists it emits its data, otherwise
it emits `none` ("For now, we treat them as logged out"). On an absent
identity it emits `none`. The listener never writes to the store; `writes`
counts `set` calls performed during resolution. -/

/-- Result of one resolution of an identity-change notification: the
emitted session event, the profile store afterwards, and how many store
writes the resolution performed. -/
structure ResolveResult where
  emitted : Option UserProfile
  store : ProfileStore
  writes : Nat
deriving Repr, DecidableEq

def resolveAuthChange (firebaseUser : Option Identity) (store : ProfileStore) :
    ResolveResult :=
  match firebaseUser with
  | some u =>
    match mapGet store u.uid with
    | some profile => { emitted := some profile, store := store, writes := 0 }
    | none => { emitted := none, store := store, writes := 0 }
  | none => { emitted := none, store := store, writes := 0 }

/-! ### Mock identity provider plus service layer sign-up / log-in
(src/components/AuthView.tsx lines 177-200, src/services/authService.ts
lines 32-74). -/

/-- A provider error: a `code` (absent when the error is not a provider
rejection) and a message, as rejected by the mock auth layer. -/
structure ProviderError where
  code : Option String
  message : String
deriving Repr, DecidableEq

/-- The whole mock database (`mockDb`): credential records, profile
documents, and per-user dream lists. -/
structure MockState where
  users : List (String × MockUser)
  userProfiles : ProfileStore
  dreams : List (String × List Dream)
deriving Repr, DecidableEq

/-- The `some` scan of `createUserWithEmailAndPassword`: does any stored
profile already carry this email? -/
def emailInUse : ProfileStore → String → Bool
  | [], _ => false
  | (_, p) :: rest, e => if p.email = e then true else emailInUse rest e

/-- Mock `createUserWithEmailAndPassword`: reject if the email is in use,
else record the credential under a fresh uid and write a profile document
carrying a 30-day `trialEndDate`. The fresh uid and the computed date are
parameters (`Date.now()` in the source). -/
def createUserWithEmailAndPassword (email password uid trialEnd : String)
    (st : MockState) : Except ProviderError (Identity × MockState) :=
  if emailInUse st.userProfiles email then
    .error { code := some "auth/email-already-in-use",
             message := "An account with this email already exists." }
  else
    .ok ({ uid := uid, email := email },
         { st with
           users := mapSet st.users uid
             { uid := uid, email := email, password := password },
           userProfiles := mapSet st.userProfiles uid
             { id := uid, email := email, plan := "free",
               trialEndDate := some trialEnd } })

/-- Service-layer `signUp`: create the account, then build
`newUser = (id, email, plan free)` and `set` it as the user document,
overwriting whatever the creation step stored there. -/
def signUp (email password uid trialEnd : String) (st : MockState) :
    Except ProviderError (UserProfile × MockState) :=
  match createUserWithEmailAndPassword email password uid trialEnd st with
  | .error e => .error e
  | .ok (firebaseUser, st1) =>
    let newUser : UserProfile :=
      { id := firebaseUser.uid, email := firebaseUser.email, plan := "free" }
    .ok (newUser,
         { st1 with userProfiles := mapSet st1.userProfiles firebaseUser.uid newUser })

/-- The `.find` over `mockDb.users` values in `signInWithEmailAndPassword`. -/
def findUserByEmail : List (String × MockUser) → String → Option MockUser
  | [], _ => none
  | (_, u) :: rest, e => if u.email = e then some u else findUserByEmail rest e

/-- Service-layer `logIn`: mock `signInWithEmailAndPassword` (find the
credential record by email, check the password), then fetch the profile
document; if it is missing, create `(id, email, plan free)` via `set` and
return it, else return the stored document. -/
def logIn (email password : String) (st : MockState) :
    Except ProviderError (UserProfile × MockState) :=
  match findUserByEmail st.users email with
  | some u =>
    if u.password = password then
      match mapGet st.userProfiles u.uid with
      | some p => .ok (p, st)
      | none =>
        let newUserProfile : UserProfile :=
          { id := u.uid, email := u.email, plan := "free" }
        .ok (newUserProfile,
             { st with userProfiles := mapSet st.userProfiles u.uid newUserProfile })
    else
      .error { code := some "auth/wrong-password",
               message := "Invalid email or password." }
  | none =>
    .error { code := some "auth/wrong-password",
             message := "Invalid email or password." }

/-! ### Dream store (src/services/authService.ts lines 82-110, mock
subcollection at src/components/AuthView.tsx lines 224-271). -/

/-- The mock `orderBy('timestamp', 'desc')` sort: a stable sort by
descending timestamp (JS `Array.prototype.sort` with comparator
`b.timestamp - a.timestamp`). -/
def sortByTimestampDesc (l : List Dream) : List Dream :=
  l.mergeSort (fun a b => decide (b.timestamp ≤ a.timestamp))

/-- `getDreamsForUser`: read the dream subcollection ordered newest
first and return the document data. -/
def getDreamsForUser (userId : String) (dreams : List (String × List Dream)) :
    List Dream :=
  sortByTimestampDesc ((mapGet dreams userId).getD [])

/-- The mock `batch().set`: it records nothing ("The mock doesn't need to
implement batching"), so the accumulated batch state stays empty. -/
def batchSet (b : Unit) (_docId : String) (_d : Dream) : Unit := b

/-- The mock `batch().commit()`: resolves without touching the store. -/
def batchCommit (_b : Unit) (dreams : List (String × List Dream)) :
    List (String × List Dream) := dreams

/-- `saveAllDreamsForUser`: queue a `batch.set` per dream, then commit. -/
def saveAllDreamsForUser (userId : String) (newDreams : List Dream)
    (dreams : List (String × List Dream)) : List (String × List Dream) :=
  batchCommit (newDreams.foldl (fun b d => batchSet b d.id d) ()) dreams

/-- The `findIndex` scan of the mock dream `doc.update`: the first dream
with this id, if any. -/
def findDream : List Dream → String → Option Dream
  | [], _ => none
  | d :: rest, i => if d.id = i then some d else findDream rest i

/-- The mock `doc.update` merge step: replace the first dream carrying the
id with the spread-merge of the old record and the patch (here the patch
is the single field `chatHistory`). -/
def updateDream : List Dream → String → String → List Dream
  | [], _, _ => []
  | d :: rest, i, ch =>
      if d.id = i then { d with chatHistory := some ch } :: rest
      else d :: updateDream rest i ch

/-- `addChatMessageToDream`: `update (chatHistory)` on the dream document.
The mock update merges when the `findIndex` scan hits, and does nothing
(not even a map write) when it misses. -/
def addChatMessageToDream (userId dreamId chatHistory : String)
    (dreams : List (String × List Dream)) : List (String × List Dream) :=
  let userDreams := (mapGet dreams userId).getD []
  match findDream userDreams dreamId with
  | some _ => mapSet dreams userId (updateDream userDreams dreamId chatHistory)
  | none => dreams

/-! ### Auth form (src/components/AuthView.tsx lines 6-59). -/

inductive AuthMode
  | login
  | signup
deriving Repr, DecidableEq

/-- The five `useState` hooks of `AuthView`. -/
structure FormState where
  mode : AuthMode
  email : String
  password : String
  isLoading : Bool
  error : Option String
deriving Repr, DecidableEq

/-- Outcome of the single provider call `handleSubmit` awaits. -/
inductive ProviderOutcome
  | success
  | failure (err : ProviderError)
deriving Repr, DecidableEq

/-- The `catch` block of `handleSubmit`: start from the generic message;
when the error carries a truthy `code`, map the four known codes to their
fixed texts and every other code to the error message itself. -/
def mapAuthError (err : ProviderError) : String :=
  match err.code with
  | none => "An unexpected error occurred."
  | some c =>
    if c = "" then "An unexpected error occurred."
    else if c = "auth/user-not-found" then "Invalid email or password."
    else if c = "auth/wrong-password" then "Invalid email or password."
    else if c = "auth/email-already-in-use" then
      "An account with this email already exists."
    else if c = "auth/weak-password" then
      "Password should be at least 6 characters."
    else err.message

/-- `handleSubmit`: empty email or password sets the validation message
and returns before any call; otherwise loading is set, exactly one
provider call is made (sign-in or sign-up per mode), a failure maps the
error into the message slot, and `finally` clears the loading flag. The
returned `Nat` counts provider calls made. -/
def handleSubmit (s : FormState) (outcome : ProviderOutcome) : FormState × Nat :=
  if s.email = "" || s.password = "" then
    ({ s with error := some "Please enter both email and password." }, 0)
  else
    match outcome with
    | .success => ({ s with isLoading := false, error := none }, 1)
    | .failure err =>
        ({ s with isLoading := false, error := some (mapAuthError err) }, 1)

/-- `toggleMode`: flip the mode and reset error, email and password. -/
def toggleMode (s : FormState) : FormState :=
  { s with
    mode := match s.mode with | .login => .signup | .signup => .login,
    error := none, email := "", password := "" }

/-! ### Billing functions (src/functions/index.js). -/

/-- The `hasUsedTrial` test of `createStripeCheckoutSession`:
`!!userData.trialEndDate` (a missing or empty field is falsy). -/
def hasUsedTrial (p : UserProfile) : Bool :=
  match p.trialEndDate with
  | none => false
  | some s => if s = "" then false else true

/-- The observable inputs of one `stripeWebhook` request: whether the
webhook secret is configured, whether `constructEvent` accepts the
signature, the event type, the `client_reference_id` of the checkout
session, and whether the Firestore `update` succeeds. -/
structure WebhookRequest where
  secretConfigured : Bool
  signatureValid : Bool
  eventType : String
  clientReferenceId : Option String
  updateSucceeds : Bool
deriving Repr, DecidableEq

/-- The observable outcome of one `stripeWebhook` request: the HTTP status
sent, and the `(uid, plan)` field updates the handler attempted. -/
structure WebhookResult where
  status : Nat
  planUpdates : List (String × String)
deriving Repr, DecidableEq

/-- `stripeWebhook`: 400 when the secret is missing or the signature check
throws; on a `checkout.session.completed` event, 400 without a
`client_reference_id`, else one `update (plan := pro)` on that user,
200 when it succeeds and 500 when it throws; any other event type is
acknowledged with 200. -/
def stripeWebhook (req : WebhookRequest) : WebhookResult :=
  if !req.secretConfigured then { status := 400, planUpdates := [] }
  else if !req.signatureValid then { status := 400, planUpdates := [] }
  else if req.eventType = "checkout.session.completed" then
    match req.clientReferenceId with
    | none => { status := 400, planUpdates := [] }
    | some firebaseUID =>
      if req.updateSucceeds then
        { status := 200, planUpdates := [(firebaseUID, "pro")] }
      else
        { status := 500, planUpdates := [(firebaseUID, "pro")] }
  else { status := 200, planUpdates := [] }

/-! ### Interleaving of auth-state notifications.

The listener registered by `onAuthStateChanged` is an async function: for
an absent identity it emits `none` synchronously at delivery; for a
present identity it suspends at the profile `get` and emits when that
fetch completes. Nothing in the code sequences or supersedes in-flight
fetches, so a fetch completion may land after later notifications were
delivered. The machine below makes those schedules explicit: `deliver`
runs a notification to its first suspension point, `complete i` resumes
the i-th pending fetch. Resolutions never write the store (see
`resolveAuthChange`), so the store is fixed for the run. -/

inductive SchedStep
  | deliver (n : Option Identity)
  | complete (i : Nat)
deriving Repr, DecidableEq

/-- State of the listener machinery: profile store, fetches in flight (in
the order they were started), and the session events emitted so far. -/
structure SyncState where
  store : ProfileStore
  pending : List Identity
  emitted : List (Option UserProfile)
deriving Repr, DecidableEq

def syncStep (s : SyncState) : SchedStep → SyncState
  | .deliver none => { s with emitted := s.emitted ++ [none] }
  | .deliver (some u) => { s with pending := s.pending ++ [u] }
  | .complete i =>
    match s.pending.get? i with
    | some u =>
        { s with pending := s.pending.eraseIdx i,
                 emitted := s.emitted ++ [(resolveAuthChange (some u) s.store).emitted] }
    | none => s

def runSched (s : SyncState) (steps : List SchedStep) : SyncState :=
  steps.foldl syncStep s

/-- The schedule in which every fetch completes before the next
notification is delivered (no overlap between resolutions). -/
def inOrderSteps : List (Option Identity) → List SchedStep
  | [] => []
  | none :: rest => SchedStep.deliver none :: inOrderSteps rest
  | some u :: rest =>
      SchedStep.deliver (some u) :: SchedStep.complete 0 :: inOrderSteps rest

/-! ### Supporting lemmas -/

theorem runSched_inOrder (notifs : List (Option Identity)) (store : ProfileStore)
    (emitted : List (Option UserProfile)) :
    (runSched { store := store, pending := [], emitted := emitted }
        (inOrderSteps notifs)).emitted
      = emitted ++ notifs.map (fun n => (resolveAuthChange n store).emitted) := by
  induction notifs generalizing emitted with
  | nil => simp [runSched, inOrderSteps]
  | cons n rest ih =>
    cases n with
    | none =>
      have h1 : runSched { store := store, pending := [], emitted := emitted }
          (inOrderSteps (none :: rest))
          = runSched { store := store, pending := [], emitted := emitted ++ [none] }
            (inOrderSteps rest) := rfl
      rw [h1, ih]
      simp [resolveAuthChange]
    | some u =>
      have h1 : runSched { store := store, pending := [], emitted := emitted }
          (inOrderSteps (some u :: rest))
          = runSched
              { store := store, pending := [],
                emitted := emitted ++ [(resolveAuthChange (some u) store).emitted] }
              (inOrderSteps rest) := rfl
      rw [h1, ih]
      simp

theorem findDream_updateDream (l : List Dream) (i ch : String) :
    findDream (updateDream l i ch) i
      = (findDream l i).map (fun d => { d with chatHistory := some ch }) := by
  induction l with
  | nil => simp [findDream, updateDream]
  | cons d rest ih =>
    by_cases h : d.id = i
    · simp [updateDream, findDream, h]
    · simp [updateDream, findDream, h, ih]

/-! ### Claim theorems -/

/-- C1 counterexample: on an identity-change notification for `u1` whose
profile document is absent, the listener emits `none` ("no session") and
performs no upsert — it does not synthesize and persist a free-plan
profile, contradicting the claim. -/
theorem resolve_missing_profile_counterexample :
    (resolveAuthChange (some { uid := "u1", email := "a@x.com" }) []).emitted = none ∧
    (resolveAuthChange (some { uid := "u1", email := "a@x.com" }) []).writes = 0 ∧
    (resolveAuthChange (some { uid := "u1", email := "a@x.com" }) []).emitted ≠
      some { id := "u1", email := "a@x.com", plan := "free" } := by
  decide

/-- C1 amended: for a present identity whose id has no profile document,
the session synchronizer emits `none` and performs no store write; the
synthesize-and-upsert self-healing of a missing profile happens only in
the explicit `logIn` operation, which creates and persists
`(id, email, plan free)` and returns it. -/
theorem resolve_missing_profile_amended (u : Identity) (store : ProfileStore)
    (email password : String) (st : MockState) (mu : MockUser)
    (h : mapGet store u.uid = none)
    (hfind : findUserByEmail st.users email = some mu)
    (hpw : mu.password = password)
    (hmiss : mapGet st.userProfiles mu.uid = none) :
    resolveAuthChange (some u) store
      = { emitted := none, store := store, writes := 0 } ∧
    logIn email password st
      = .ok ({ id := mu.uid, email := mu.email, plan := "free" },
             { st with userProfiles := mapSet st.userProfiles mu.uid { id := mu.uid, email := mu.email, plan := "free" } }) := by
  constructor
  · simp [resolveAuthChange, h]
  · simp [logIn, hfind, hpw, hmiss]

/-- Witness for the amended C1 theorem at a concrete state. -/
theorem resolve_missing_profile_amended_witness :
    resolveAuthChange (some { uid := "u1", email := "a@x.com" }) []
      = { emitted := none, store := [], writes := 0 } ∧
    logIn "a@x.com" "pw"
        { users := [("u1", { uid := "u1", email := "a@x.com", password := "pw" })],
          userProfiles := [], dreams := [] }
      = .ok ({ id := "u1", email := "a@x.com", plan := "free" },
             { users := [("u1", { uid := "u1", email := "a@x.com", password := "pw" })],
               userProfiles :=
                 [("u1", { id := "u1", email := "a@x.com", plan := "free" })],
               dreams := [] }) := by
  have h := resolve_missing_profile_amended
    { uid := "u1", email := "a@x.com" } [] "a@x.com" "pw"
    { users := [("u1", { uid := "u1", email := "a@x.com", password := "pw" })],
      userProfiles := [], dreams := [] }
    { uid := "u1", email := "a@x.com", password := "pw" }
    rfl (by decide) rfl rfl
  exact ⟨h.1, by rw [h.2]; rfl⟩

/-- C2 counterexample: deliver identity `uA` (profile present in the
store), then deliver the absent identity, and only afterwards let the
profile fetch of `uA` complete. The emitted sequence is
`[none, some profileA]`: the final emitted session event is `uA`'s
profile, not `none`, so the slower earlier resolution does overwrite the
later one. -/
theorem stale_resolution_counterexample :
    (runSched
        { store := [("uA", { id := "uA", email := "a@x.com", plan := "free" })],
          pending := [], emitted := [] }
        [SchedStep.deliver (some { uid := "uA", email := "a@x.com" }),
         SchedStep.deliver none, SchedStep.complete 0]).emitted
      = [none, some { id := "uA", email := "a@x.com", plan := "free" }] ∧
    (runSched
        { store := [("uA", { id := "uA", email := "a@x.com", plan := "free" })],
          pending := [], emitted := [] }
        [SchedStep.deliver (some { uid := "uA", email := "a@x.com" }),
         SchedStep.deliver none, SchedStep.complete 0]).emitted.getLast?
      ≠ some none := by
  decide

/-- C2 amended: the listener resolves each notification independently with
no stale-result suppression. When every profile fetch completes before the
next notification is delivered, the emitted sequence is exactly the
per-notification resolved values (so the final event is the last
notification's resolution); but in the identity-A-then-absent scenario
whose fetch completes after the absent path has emitted, the final emitted
event is A's resolved profile rather than `none`. -/
theorem emissions_per_schedule (notifs : List (Option Identity)) (store : ProfileStore) :
    (runSched { store := store, pending := [], emitted := [] }
        (inOrderSteps notifs)).emitted
      = notifs.map (fun n => (resolveAuthChange n store).emitted) ∧
    (runSched
        { store := [("uA", { id := "uA", email := "a@x.com", plan := "free" })],
          pending := [], emitted := [] }
        [SchedStep.deliver (some { uid := "uA", email := "a@x.com" }),
         SchedStep.deliver none, SchedStep.complete 0]).emitted
      = [none, some { id := "uA", email := "a@x.com", plan := "free" }] := by
  constructor
  · simpa using runSched_inOrder notifs store []
  · decide

/-- C7: resolving a present identity whose profile document exists emits
that stored profile, leaves the store unchanged and performs zero writes,
and a second resolution of the same identity yields the same result. -/
theorem resolve_existing_profile_idempotent (u : Identity) (store : ProfileStore)
    (p : UserProfile) (h : mapGet store u.uid = some p) :
    resolveAuthChange (some u) store
      = { emitted := some p, store := store, writes := 0 } ∧
    resolveAuthChange (some u) (resolveAuthChange (some u) store).store
      = { emitted := some p, store := store, writes := 0 } := by
  simp [resolveAuthChange, h]

/-- Witness for the C7 theorem at a concrete store. -/
theorem resolve_existing_profile_idempotent_witness :
    resolveAuthChange (some { uid := "u1", email := "a@x.com" })
        [("u1", { id := "u1", email := "a@x.com", plan := "pro" })]
      = { emitted := some { id := "u1", email := "a@x.com", plan := "pro" },
          store := [("u1", { id := "u1", email := "a@x.com", plan := "pro" })],
          writes := 0 } :=
  (resolve_existing_profile_idempotent { uid := "u1", email := "a@x.com" }
    [("u1", { id := "u1", email := "a@x.com", plan := "pro" })]
    { id := "u1", email := "a@x.com", plan := "pro" } rfl).1

/-- C3: after the bulk replace-all batch for a user is committed, reading
the dream list returns either exactly the new batch (as the ordered read
would present it) or exactly the prior entries, never a mixture. In this
code the second branch always holds: the mock batch `set` records nothing
and `commit` leaves the store untouched. -/
theorem saveAll_reader_sees_old_or_new (userId : String) (newDreams : List Dream)
    (dreams : List (String × List Dream)) :
    getDreamsForUser userId (saveAllDreamsForUser userId newDreams dreams)
        = sortByTimestampDesc newDreams ∨
    getDreamsForUser userId (saveAllDreamsForUser userId newDreams dreams)
        = getDreamsForUser userId dreams :=
  Or.inr rfl

/-- C4 counterexample: an error with the unknown code
`auth/network-request-failed` is mapped to its own message, not to the
generic fallback; two unknown codes with different messages map to two
different texts, so unknown codes do not share one fallback message. -/
theorem mapAuthError_unknown_code_counterexample :
    mapAuthError { code := some "auth/network-request-failed",
                   message := "A network error occurred." }
      = "A network error occurred." ∧
    mapAuthError { code := some "auth/network-request-failed",
                   message := "A network error occurred." }
      ≠ "An unexpected error occurred." ∧
    mapAuthError { code := some "auth/internal-error", message := "Internal." }
      ≠ mapAuthError { code := some "auth/network-request-failed",
                       message := "A network error occurred." } := by
  refine ⟨rfl, ?_, ?_⟩ <;> decide

/-- C4 amended: the error mapping is total; the four known codes map to
their fixed messages (wrong credential yields "Invalid email or
password."), an error carrying an unknown non-empty code maps to that
error's own message, and an error without a code maps to the generic
fallback. -/
theorem mapAuthError_total_mapping (m c : String)
    (hc : c ≠ "")
    (h1 : c ≠ "auth/user-not-found") (h2 : c ≠ "auth/wrong-password")
    (h3 : c ≠ "auth/email-already-in-use") (h4 : c ≠ "auth/weak-password") :
    mapAuthError { code := some "auth/user-not-found", message := m }
      = "Invalid email or password." ∧
    mapAuthError { code := some "auth/wrong-password", message := m }
      = "Invalid email or password." ∧
    mapAuthError { code := some "auth/email-already-in-use", message := m }
      = "An account with this email already exists." ∧
    mapAuthError { code := some "auth/weak-password", message := m }
      = "Password should be at least 6 characters." ∧
    mapAuthError { code := none, message := m } = "An unexpected error occurred." ∧
    mapAuthError { code := some c, message := m } = m := by
  refine ⟨rfl, rfl, rfl, rfl, rfl, ?_⟩
  simp [mapAuthError, hc, h1, h2, h3, h4]

/-- Witness for the amended C4 theorem at a concrete unknown code. -/
theorem mapAuthError_total_mapping_witness :
    mapAuthError { code := some "auth/too-many-requests", message := "Slow down." }
      = "Slow down." :=
  (mapAuthError_total_mapping "Slow down." "auth/too-many-requests"
    (by decide) (by decide) (by decide) (by decide) (by decide)).2.2.2.2.2

/-- C5: the webhook responds 400 whenever the signature check fails,
responds 400 on a checkout-completed event without a correlation id, and
on a verified checkout-completed event with a correlation id attempts
exactly one plan-to-pro field update on that user, responding 200 when
the update succeeds and 500 when it throws. -/
theorem stripeWebhook_contract (req : WebhookRequest) :
    (req.signatureValid = false →
      stripeWebhook req = { status := 400, planUpdates := [] }) ∧
    (req.secretConfigured = true → req.signatureValid = true →
      req.eventType = "checkout.session.completed" →
      req.clientReferenceId = none →
      stripeWebhook req = { status := 400, planUpdates := [] }) ∧
    (∀ uid, req.secretConfigured = true → req.signatureValid = true →
      req.eventType = "checkout.session.completed" →
      req.clientReferenceId = some uid →
      (stripeWebhook req).planUpdates = [(uid, "pro")] ∧
      (req.updateSucceeds = true → (stripeWebhook req).status = 200) ∧
      (req.updateSucceeds = false → (stripeWebhook req).status = 500)) := by
  refine ⟨?_, ?_, ?_⟩
  · intro h
    cases hsc : req.secretConfigured <;> simp [stripeWebhook, h, hsc]
  · intro hsc hsv het hcr
    simp [stripeWebhook, hsc, hsv, het, hcr]
  · intro uid hsc hsv het hcr
    cases hus : req.updateSucceeds <;>
      simp [stripeWebhook, hsc, hsv, het, hcr, hus]

/-- Witness for the C5 theorem at concrete requests covering the bad
signature, the missing correlation id, the successful update, and the
failed update. -/
theorem stripeWebhook_contract_witness :
    stripeWebhook { secretConfigured := true, signatureValid := false,
                    eventType := "checkout.session.completed",
                    clientReferenceId := some "u1", updateSucceeds := true }
      = { status := 400, planUpdates := [] } ∧
    stripeWebhook { secretConfigured := true, signatureValid := true,
                    eventType := "checkout.session.completed",
                    clientReferenceId := none, updateSucceeds := true }
      = { status := 400, planUpdates := [] } ∧
    (stripeWebhook { secretConfigured := true, signatureValid := true,
                     eventType := "checkout.session.completed",
                     clientReferenceId := some "u1", updateSucceeds := true }).planUpdates
      = [("u1", "pro")] ∧
    (stripeWebhook { secretConfigured := true, signatureValid := true,
                     eventType := "checkout.session.completed",
                     clientReferenceId := some "u1", updateSucceeds := true }).status
      = 200 ∧
    (stripeWebhook { secretConfigured := true, signatureValid := true,
                     eventType := "checkout.session.completed",
                     clientReferenceId := some "u1", updateSucceeds := false }).status
      = 500 :=
  ⟨(stripeWebhook_contract _).1 rfl,
   (stripeWebhook_contract _).2.1 rfl rfl rfl rfl,
   ((stripeWebhook_contract _).2.2 "u1" rfl rfl rfl rfl).1,
   ((stripeWebhook_contract _).2.2 "u1" rfl rfl rfl rfl).2.1 rfl,
   ((stripeWebhook_contract _).2.2 "u1" rfl rfl rfl rfl).2.2 rfl⟩

/-- C6: when no dream with the given id exists under the user, the chat
update is a silent no-op leaving the whole store unchanged; when one
exists, the patch is merged into it (its `chatHistory` field replaced,
the rest of the record kept). -/
theorem addChatMessage_merge_or_noop (userId dreamId ch : String)
    (dreams : List (String × List Dream)) :
    (findDream ((mapGet dreams userId).getD []) dreamId = none →
      addChatMessageToDream userId dreamId ch dreams = dreams) ∧
    (∀ d, findDream ((mapGet dreams userId).getD []) dreamId = some d →
      findDream
          ((mapGet (addChatMessageToDream userId dreamId ch dreams) userId).getD [])
          dreamId
        = some { d with chatHistory := some ch }) := by
  constructor
  · intro h
    simp [addChatMessageToDream, h]
  · intro d h
    simp [addChatMessageToDream, h, mapGet_mapSet_self, findDream_updateDream]

/-- Witness for the C6 theorem: a no-op on a missing dream id and a merge
on an existing one, at a concrete store. -/
theorem addChatMessage_merge_or_noop_witness :
    addChatMessageToDream "u1" "zz" "hello"
        [("u1", [{ id := "d1", timestamp := 5 }])]
      = [("u1", [{ id := "d1", timestamp := 5 }])] ∧
    findDream
        ((mapGet (addChatMessageToDream "u1" "d1" "hello"
            [("u1", [{ id := "d1", timestamp := 5 }])]) "u1").getD [])
        "d1"
      = some { id := "d1", timestamp := 5, chatHistory := some "hello" } :=
  ⟨(addChatMessage_merge_or_noop "u1" "zz" "hello"
      [("u1", [{ id := "d1", timestamp := 5 }])]).1 rfl,
   (addChatMessage_merge_or_noop "u1" "d1" "hello"
      [("u1", [{ id := "d1", timestamp := 5 }])]).2
     { id := "d1", timestamp := 5 } rfl⟩

/-- C8: submitting with an empty email or an empty password only sets the
validation message — the loading flag, mode and fields are untouched and
zero provider calls (hence no store access, which happens only inside
those calls) are made; with both fields non-empty, a provider failure
ends with the mapped error message set and the loading flag cleared,
after exactly one provider call. -/
theorem handleSubmit_validation_and_failure (s : FormState)
    (outcome : ProviderOutcome) :
    (s.email = "" ∨ s.password = "" →
      handleSubmit s outcome
        = ({ s with error := some "Please enter both email and password." }, 0)) ∧
    (s.email ≠ "" → s.password ≠ "" → ∀ err, outcome = .failure err →
      handleSubmit s outcome
        = ({ s with isLoading := false, error := some (mapAuthError err) }, 1)) := by
  constructor
  · intro h
    rcases h with h | h <;> simp [handleSubmit, h]
  · intro h1 h2 err hout
    simp [handleSubmit, h1, h2, hout]

/-- Witness for the C8 theorem: an empty-password submission and a
wrong-password failure, at concrete form states. -/
theorem handleSubmit_validation_and_failure_witness :
    handleSubmit { mode := .login, email := "a@x.com", password := "",
                   isLoading := false, error := none } .success
      = ({ mode := .login, email := "a@x.com", password := "",
           isLoading := false,
           error := some "Please enter both email and password." }, 0) ∧
    handleSubmit { mode := .login, email := "a@x.com", password := "pw",
                   isLoading := true, error := none }
        (.failure { code := some "auth/wrong-password",
                    message := "Invalid email or password." })
      = ({ mode := .login, email := "a@x.com", password := "pw",
           isLoading := false, error := some "Invalid email or password." }, 1) :=
  ⟨(handleSubmit_validation_and_failure _ _).1 (Or.inr rfl),
   (handleSubmit_validation_and_failure
      { mode := .login, email := "a@x.com", password := "pw",
        isLoading := true, error := none } _).2 (by decide) (by decide) _ rfl⟩

/-- C9: toggling the form mode clears the email field, the password field
and the error field, whatever the previous state was. -/
theorem toggleMode_full_reset (s : FormState) :
    (toggleMode s).email = "" ∧ (toggleMode s).password = "" ∧
    (toggleMode s).error = none := by
  simp [toggleMode]

/-- C10: when the email is not yet in use, the account-creation step
stores a profile carrying a `trialEndDate`, and `signUp` then overwrites
that document with exactly `(id, email, plan free)` — no `trialEndDate`
— so the stored profile afterwards makes the checkout `hasUsedTrial`
check evaluate to false. -/
theorem signUp_overwrites_trial_profile (email password uid trialEnd : String)
    (st : MockState) (h : emailInUse st.userProfiles email = false) :
    mapGet (mapSet st.userProfiles uid
        { id := uid, email := email, plan := "free", trialEndDate := some trialEnd }) uid
      = some { id := uid, email := email, plan := "free", trialEndDate := some trialEnd } ∧
    signUp email password uid trialEnd st
      = .ok ({ id := uid, email := email, plan := "free" },
             { users := mapSet st.users uid { uid := uid, email := email, password := password },
               userProfiles := mapSet
                 (mapSet st.userProfiles uid
                   { id := uid, email := email, plan := "free", trialEndDate := some trialEnd })
                 uid { id := uid, email := email, plan := "free" },
               dreams := st.dreams }) ∧
    mapGet (mapSet
        (mapSet st.userProfiles uid
          { id := uid, email := email, plan := "free", trialEndDate := some trialEnd })
        uid { id := uid, email := email, plan := "free" }) uid
      = some { id := uid, email := email, plan := "free", trialEndDate := none } ∧
    hasUsedTrial { id := uid, email := email, plan := "free" } = false := by
  refine ⟨mapGet_mapSet_self _ _ _, ?_, mapGet_mapSet_self _ _ _, rfl⟩
  simp [signUp, createUserWithEmailAndPassword, h]

/-- Witness for the C10 theorem on an empty database. -/
theorem signUp_overwrites_trial_profile_witness :
    signUp "a@x.com" "pw" "u1" "2030-01-01" { users := [], userProfiles := [], dreams := [] }
      = .ok ({ id := "u1", email := "a@x.com", plan := "free" },
             { users := [("u1", { uid := "u1", email := "a@x.com", password := "pw" })],
               userProfiles := [("u1", { id := "u1", email := "a@x.com", plan := "free" })],
               dreams := [] }) ∧
    hasUsedTrial { id := "u1", email := "a@x.com", plan := "free" } = false := by
  have h := signUp_overwrites_trial_profile "a@x.com" "pw" "u1" "2030-01-01"
    { users := [], userProfiles := [], dreams := [] } rfl
  exact ⟨by rw [h.2.1]; rfl, h.2.2.2⟩

end DreamWeaver
